import Mathlib

/-
  Verification development for the securemr_demo repository.

  The repository holds two Python command-line utilities:
    * Docker/scripts/qnn_to_waterdrop_model_config.py — converts a QNN model
      descriptor (JSON metadata plus a compiled binary) into a "waterdrop"
      deployment configuration file;
    * Docker/scripts/get_onnx_info.py — prints one `-d <name> <shape>` line
      per declared graph input of an ONNX model.

  The definitions below are a shallow embedding of those scripts: Python
  strings become `String`, Python lists become `List`, Python dicts (which
  preserve insertion order) become ordered association lists, and code that
  can raise becomes `Except`-valued.  File-system effects (writing the config
  file, copying the binary) are represented as data in the result records.
-/

/-- The exception kinds the config generator can raise: `IndexError` from
alias-list indexing and `ValueError` from runtime normalization. -/
inductive PyErr where
  | indexError : PyErr
  | valueError : String → PyErr
deriving DecidableEq, Repr

/-- Canonical numpy scalar dtype names.  Finite model of the spellings the
external `np.dtype` constructor resolves, restricted to canonical names
(each of which numpy resolves to itself). -/
def npDtypeNames : List String :=
  ["bool", "int8", "int16", "int32", "int64",
   "uint8", "uint16", "uint32", "uint64",
   "float16", "float32", "float64", "complex64", "complex128"]

/-- Model of the external `np.dtype(name)` lookup used by `Dtype.__init__`:
`some` of the canonical spelling when the name resolves, `none` when numpy
raises `TypeError` (the case the source catches). -/
def npDtype (s : String) : Option String :=
  if s ∈ npDtypeNames then some s else none

/-- The spelling the extraction code passes for `np.float32`
(`str(np.dtype(np.float32)) = "float32"`). -/
def npFloat32 : String := "float32"

/-- The alias rewriting at the top of `Dtype.__init__`: three successive
`if` statements turning `fp32`/`fp16`/`fp64` into the long spellings. -/
def dtypeRewrite (s : String) : String :=
  let d1 := if s = "fp32" then "float32" else s
  let d2 := if d1 = "fp16" then "float16" else d1
  if d2 = "fp64" then "float64" else d2

/-- `Dtype.__init__` on a string argument.  The `try: np.dtype(...)` either
resolves (`some`) or raises `TypeError`, which the `except` clause catches by
storing the raw string; afterwards `str`/`string` inputs are overridden to
`"string"`.  The result is `str(self)`, i.e. the stored dtype's spelling.
No branch raises, hence the `Except` is always `.ok`. -/
def dtypeInit (s : String) : Except PyErr String :=
  let d := dtypeRewrite s
  let resolved : Except PyErr String :=
    match npDtype d with
    | some t => Except.ok t
    | none => Except.ok d
  match resolved with
  | Except.ok v => Except.ok (if d = "str" ∨ d = "string" then "string" else v)
  | Except.error e => Except.error e

/-- `str(Dtype(s))`: the canonical spelling stored by `Dtype.__init__`. -/
def dtypeStr (s : String) : String :=
  match dtypeInit s with
  | Except.ok v => v
  | Except.error _ => s

/-- `Dtype.short_str`, applied to `str(self)`. -/
def Dtype.short_str (d : String) : String :=
  if d = "float32" then "fp32"
  else if d = "float16" then "fp16"
  else if d = "float64" then "fp64"
  else d

/-- `Dtype.encoding_type`, applied to `str(self)`. -/
def Dtype.encoding_type (d : String) : String :=
  if d = "float32" then "FP32"
  else if d = "float16" then "FP16"
  else if d = "float64" then "FP64"
  else d

/-- `Dtype.short_str` as a function of the original input spelling. -/
def short_of_spelling (x : String) : String := Dtype.short_str (dtypeStr x)

/-- `Dtype.encoding_type` as a function of the original input spelling. -/
def encoding_of_spelling (x : String) : String := Dtype.encoding_type (dtypeStr x)

/-- Python `str.upper` (ASCII, which is all the tool receives). -/
def pyUpper (s : String) : String := String.mk (s.toList.map Char.toUpper)

/-- The fixed runtime enumeration `QNNRuntime.RuntimeEnum`. -/
def RuntimeEnum : List String := ["HTP_FIXED8_TF", "CPU_FLOAT32", "GPU_FLOAT16"]

/-- `QNNRuntime.__init__`: upper-case the argument, accept members of
`RuntimeEnum` as-is, expand the shorthands `HTP`/`CPU`/`GPU`, and raise
`ValueError` for anything else.  The stored value is `str(self)`. -/
def QNNRuntime.init (runtime : String) : Except PyErr String :=
  let r := pyUpper runtime
  if r ∈ RuntimeEnum then Except.ok r
  else if r = "HTP" then Except.ok "HTP_FIXED8_TF"
  else if r = "CPU" then Except.ok "CPU_FLOAT32"
  else if r = "GPU" then Except.ok "GPU_FLOAT16"
  else Except.error (PyErr.valueError ("Unknown runtime " ++ r))

/-- Index of the last occurrence of `c` in `l`, or `-1` when absent
(Python `str.rfind`). -/
def rfindIdx (l : List Char) (c : Char) : Int :=
  match l with
  | [] => -1
  | x :: xs =>
      let r := rfindIdx xs c
      if r ≥ 0 then r + 1 else if x = c then 0 else -1

/-- `os.path.basename` for POSIX paths: everything after the last slash. -/
def pyBasename (p : String) : String :=
  let l := p.toList
  String.mk (l.drop (rfindIdx l '/' + 1).toNat)

/-- The root part of `os.path.splitext` (posixpath): split at the last dot
provided some non-dot character stands strictly between the last slash and
that dot; otherwise return the path unchanged. -/
def splitextRoot (p : String) : String :=
  let l := p.toList
  let sepIdx := rfindIdx l '/'
  let dotIdx := rfindIdx l '.'
  if dotIdx > sepIdx then
    let between := (l.drop (sepIdx + 1).toNat).take (dotIdx - sepIdx - 1).toNat
    if between.any (fun c => c ≠ '.') then String.mk (l.take dotIdx.toNat) else p
  else p

/-- `get_file_basename`: basename of the path, with the extension also
stripped when `remove_ext` is set. -/
def get_file_basename (filename : String) (remove_ext : Bool) : String :=
  let basename := pyBasename filename
  if !remove_ext then basename
  else splitextRoot basename

/-- `os.path.dirname` for POSIX paths. -/
def pyDirname (p : String) : String :=
  let l := p.toList
  let i := rfindIdx l '/' + 1
  let head := l.take i.toNat
  if head ≠ [] ∧ ¬ head.all (fun c => c = '/') then
    String.mk ((head.reverse.dropWhile (fun c => c = '/')).reverse)
  else String.mk head

/-- Python `str.startswith`, over the character lists. -/
def pyStartsWith (s pre : String) : Bool := pre.toList.isPrefixOf s.toList

/-- Python `str.endswith`, over the character lists. -/
def pyEndsWith (s suf : String) : Bool := suf.toList.isSuffixOf s.toList

/-- Two-argument `os.path.join` for POSIX paths. -/
def pyJoin (a b : String) : String :=
  if pyStartsWith b "/" then b
  else if a = "" ∨ pyEndsWith a "/" then a ++ b
  else a ++ "/" ++ b

/-- `os.path.abspath` relative to a working directory, restricted to inputs
that `normpath` leaves unchanged (the tool is only exercised on normalized
paths; `..`/`.` collapsing is not modelled). -/
def pyAbspath (cwd p : String) : String := pyJoin cwd p

/-- JSON values, the shape of the assembled config record. -/
inductive JVal where
  | jstr : String → JVal
  | jbool : Bool → JVal
  | jnum : Int → JVal
  | jarr : List JVal → JVal
  | jobj : List (String × JVal) → JVal

/-- A run of `n` spaces, for `json.dumps(..., indent=4)`. -/
def nspaces (n : Nat) : String := String.mk (List.replicate n ' ')

/-- Lower-case hexadecimal digit. -/
def hexDigit (n : Nat) : Char :=
  if n < 10 then Char.ofNat (48 + n) else Char.ofNat (87 + n)

/-- A `\uXXXX` escape for a code unit below 0x10000. -/
def uEscape (n : Nat) : List Char :=
  ['\\', 'u', hexDigit (n / 4096 % 16), hexDigit (n / 256 % 16),
   hexDigit (n / 16 % 16), hexDigit (n % 16)]

/-- Escaping of one character by `json.dumps` with its default
`ensure_ascii=True`. -/
def jsonEscapeChar (c : Char) : List Char :=
  if c = '"' then ['\\', '"']
  else if c = '\\' then ['\\', '\\']
  else if c = '\n' then ['\\', 'n']
  else if c = '\t' then ['\\', 't']
  else if c = '\r' then ['\\', 'r']
  else if c = '\x08' then ['\\', 'b']
  else if c = '\x0c' then ['\\', 'f']
  else if c.toNat < 32 then uEscape c.toNat
  else if c.toNat ≤ 126 then [c]
  else if c.toNat < 65536 then uEscape c.toNat
  else uEscape (55296 + (c.toNat - 65536) / 1024) ++ uEscape (56320 + (c.toNat - 65536) % 1024)

/-- A JSON string literal as `json.dumps` writes it. -/
def jsonQuote (s : String) : String :=
  "\"" ++ String.mk (s.toList.map jsonEscapeChar).flatten ++ "\""

/-- `json.dumps(v, indent=4)` at nesting level `lvl` (item separator `,`,
key separator `: `, empty containers printed inline). -/
def dumpVal : Nat → JVal → String
  | _, JVal.jstr s => jsonQuote s
  | _, JVal.jbool b => if b then "true" else "false"
  | _, JVal.jnum n => toString n
  | lvl, JVal.jarr l =>
      if l.isEmpty then "[]"
      else
        "[\n" ++
        String.intercalate ",\n"
          (l.attach.map (fun x => nspaces (4 * (lvl + 1)) ++ dumpVal (lvl + 1) x.1)) ++
        "\n" ++ nspaces (4 * lvl) ++ "]"
  | lvl, JVal.jobj l =>
      if l.isEmpty then "\x7b\x7d"
      else
        "\x7b\n" ++
        String.intercalate ",\n"
          (l.attach.map (fun x =>
            nspaces (4 * (lvl + 1)) ++ jsonQuote x.1.1 ++ ": " ++ dumpVal (lvl + 1) x.1.2)) ++
        "\n" ++ nspaces (4 * lvl) ++ "\x7d"
termination_by _ v => sizeOf v
decreasing_by
  · have h := List.sizeOf_lt_of_mem x.2
    simp only [JVal.jarr.sizeOf_spec]
    omega
  · have h := List.sizeOf_lt_of_mem x.2
    have h2 : sizeOf x.1.2 ≤ sizeOf x.1 := by
      obtain ⟨⟨k, v⟩, hm⟩ := x
      simp only [Prod.mk.sizeOf_spec]
      omega
    simp only [JVal.jobj.sizeOf_spec]
    omega

/-- `json.dumps(v, indent=4)`. -/
def json_dumps (v : JVal) : String := dumpVal 0 v

/-- Assignment `d[k] = v` on an insertion-ordered dict: replace in place when
the key exists, append otherwise. -/
def dictSet (d : List (String × JVal)) (k : String) (v : JVal) : List (String × JVal) :=
  if d.any (fun p => p.1 = k) then d.map (fun p => if p.1 = k then (k, v) else p)
  else d ++ [(k, v)]

/-- `d.update(kvs)` on an insertion-ordered dict. -/
def dictUpdate (d : List (String × JVal)) (kvs : List (String × JVal)) : List (String × JVal) :=
  kvs.foldl (fun acc p => dictSet acc p.1 p.2) d

/-- Dict lookup `d[k]` (first entry with the key). -/
def dictGet (d : List (String × JVal)) (k : String) : Option JVal :=
  (d.find? (fun p => p.1 = k)).map (fun p => p.2)

/-- `TensorInfo`: name, shape, normalized dtype (stored as `str(Dtype(...))`),
and free-text annotation. -/
structure TensorInfo where
  name : String
  shape : List Int
  dtype : String
  doc_string : String
deriving Repr

/-- One tensor descriptor of the metadata's `graph.tensors` mapping: the
`type` discriminator (0 = graph input, 1 = graph output) and the `dims`
field, the only keys the tool reads. -/
structure TensorDesc where
  type : Int
  dims : List Int
deriving Repr

/-- The fields of the `$model_net.json` metadata document the tool reads:
the `model.cpp` entry and the insertion-ordered `graph.tensors` mapping. -/
structure MetaDoc where
  modelCpp : String
  tensors : List (String × TensorDesc)
deriving Repr

/-- `QNNModelInfo`: paths of the two inputs plus the parsed metadata
(`self.model_info`, read from the JSON file in `__init__`). -/
structure QNNModelInfo where
  model_json : String
  model_path : String
  model_info : MetaDoc
deriving Repr

/-- `self.model_name`, computed in `QNNModelInfo.__init__`: basename of the
metadata's `model.cpp` field with the extension stripped. -/
def QNNModelInfo.model_name (m : QNNModelInfo) : String :=
  get_file_basename m.model_info.modelCpp true

/-- `QNNModelInfo.get_input_infos`: the tensors whose `type` is 0, in
mapping order, each with shape taken from `dims` and dtype `np.float32`. -/
def get_input_infos (tensors : List (String × TensorDesc)) : List TensorInfo :=
  tensors.filterMap (fun p =>
    if p.2.type = 0 then
      some { name := p.1, shape := p.2.dims, dtype := dtypeStr npFloat32, doc_string := "" }
    else none)

/-- `QNNModelInfo.get_output_infos`: the tensors whose `type` is 1, in
mapping order, each with shape taken from `dims` and dtype `np.float32`. -/
def get_output_infos (tensors : List (String × TensorDesc)) : List TensorInfo :=
  tensors.filterMap (fun p =>
    if p.2.type = 1 then
      some { name := p.1, shape := p.2.dims, dtype := dtypeStr npFloat32, doc_string := "" }
    else none)

/-- `_tensor_to_dict`: the per-tensor record of the emitted config. -/
def tensor_to_dict (t : TensorInfo) (alias_name : String) : JVal :=
  JVal.jobj [
    ("name", JVal.jstr t.name),
    ("shape", JVal.jarr (t.shape.map JVal.jnum)),
    ("encoding_type", JVal.jstr (Dtype.encoding_type t.dtype)),
    ("alias_name", JVal.jstr alias_name)
  ]

/-- The comprehension `[_tensor_to_dict(t, aliases[i]) for i, t in
enumerate(infos)]`: pairs tensors with alias entries positionally, ignores
surplus alias entries, and is `none` (Python `IndexError`) when the alias
list runs out before the tensors do. -/
def zipAlias : List TensorInfo → List String → Option (List JVal)
  | [], _ => some []
  | _ :: _, [] => none
  | t :: ts, a :: rest =>
      match zipAlias ts rest with
      | some l => some (tensor_to_dict t a :: l)
      | none => none

/-- Python truthiness-based defaulting `x or y` for optional strings
(an empty string is falsy). -/
def pyOrStr (a : Option String) (b : String) : String :=
  match a with
  | some s => if s = "" then b else s
  | none => b

/-- The `runtime` argument of `to_json`: `Union[str, List[str]]`. -/
inductive RuntimeArg where
  | single : String → RuntimeArg
  | list : List String → RuntimeArg

/-- The `if isinstance(runtime, str): runtime = [runtime]` step. -/
def RuntimeArg.toList : RuntimeArg → List String
  | RuntimeArg.single s => [s]
  | RuntimeArg.list l => l

/-- What a successful `to_json` call produces: the assembled config record
(the Python dict just before serialization), the serialized text it returns,
and the write it performs (path and content) when a truthy output filename
was supplied. -/
structure ToJsonResult where
  model : List (String × JVal)
  json_str : String
  written : Option (String × String)

/-- `QNNModelInfo.to_json`.  Assembles the config dict in the source's key
order (model_name, path_to_zoo, engine_type, input, output,
specific_config), pairing tensors with alias entries (alias lists default to
the tensors' own names; a short alias list raises `IndexError`), normalizing
each runtime entry (an unknown one raises `ValueError`), merging the
caller-supplied extra fields last, serializing with `indent=4` and recording
the write when `output_filename` is truthy. -/
def to_json (m : QNNModelInfo) (runtime : RuntimeArg)
    (model_name : Option String) (model_path : Option String)
    (input_alias_names : Option (List String)) (output_alias_names : Option (List String))
    (output_filename : Option String) (enable_dynamic_runtime : Bool)
    (custom_model_info : List (String × JVal)) : Except PyErr ToJsonResult :=
  let mn := pyOrStr model_name m.model_name
  let path_to_zoo := pyOrStr model_path (get_file_basename m.model_path false)
  let model0 : List (String × JVal) :=
    [("model_name", JVal.jstr mn),
     ("path_to_zoo", JVal.jstr path_to_zoo),
     ("engine_type", JVal.jstr "qnn")]
  let input_infos := get_input_infos m.model_info.tensors
  let output_infos := get_output_infos m.model_info.tensors
  let ia := input_alias_names.getD (input_infos.map (fun t => t.name))
  let oa := output_alias_names.getD (output_infos.map (fun t => t.name))
  match zipAlias input_infos ia with
  | none => Except.error PyErr.indexError
  | some inputDicts =>
    match zipAlias output_infos oa with
    | none => Except.error PyErr.indexError
    | some outputDicts =>
      let model1 := dictSet (dictSet model0 "input" (JVal.jarr inputDicts))
                      "output" (JVal.jarr outputDicts)
      match (RuntimeArg.toList runtime).mapM QNNRuntime.init with
      | Except.error e => Except.error e
      | Except.ok rts =>
        let model2 := dictSet model1 "specific_config"
          (JVal.jobj [("runtime_order", JVal.jarr (rts.map JVal.jstr)),
                      ("enable_dynamic_runtime", JVal.jbool enable_dynamic_runtime)])
        let model3 := dictUpdate model2 custom_model_info
        let js := json_dumps (JVal.jobj model3)
        Except.ok
          { model := model3,
            json_str := js,
            written :=
              match output_filename with
              | some f => if f = "" then none else some (f, js)
              | none => none }

/-- What one `main` invocation produces: the resolved output directory, the
`cp` of the context binary into it, and the `to_json` call's result. -/
structure MainResult where
  outputDir : String
  copy_src : String
  copy_dst : String
  config : ToJsonResult

/-- The `main` entry point of the config generator.  `doc` stands for the
parsed content of the metadata file at `model_net_json`; `cwd` resolves
`os.path.abspath`.  Resolves `<dir of binary>/<output>/0`, copies the binary
there, and writes `model.json` via `to_json` with runtime `"HTP"`. -/
def qnn_main (cwd : String) (doc : MetaDoc) (model_net_json : String)
    (context_binary : String) (output : String) : Except PyErr MainResult :=
  let outdir := pyDirname (pyAbspath cwd context_binary)
  let outputDir := pyJoin (pyJoin outdir output) "0"
  let model : QNNModelInfo :=
    { model_json := model_net_json, model_path := context_binary, model_info := doc }
  let output_filename := pyJoin outputDir "model.json"
  match to_json model (RuntimeArg.single "HTP") none none none none
          (some output_filename) false [] with
  | Except.ok r =>
      Except.ok { outputDir := outputDir, copy_src := context_binary,
                  copy_dst := outputDir ++ "/", config := r }
  | Except.error e => Except.error e

/-- One dimension of an ONNX tensor type: the declared `dim_value`
(0 when unset or symbolic). -/
structure OnnxDim where
  dim_value : Int
deriving Repr

/-- One declared graph input of an ONNX model: its name and the dimension
list of its tensor type. -/
structure OnnxInput where
  name : String
  dims : List OnnxDim
deriving Repr

/-- The part of an ONNX model `get_onnx_info.py` reads: `model.graph.input`
in declaration order. -/
structure OnnxModel where
  graph_input : List OnnxInput
deriving Repr

/-- Python `repr` of a list of ints, as an f-string interpolates it. -/
def pyIntListRepr (l : List Int) : String :=
  "[" ++ String.intercalate ", " (l.map toString) ++ "]"

/-- The line the inspector prints for one graph input:
`-d <name> [<dim0>, <dim1>, ...]`. -/
def onnx_input_line (i : OnnxInput) : String :=
  "-d " ++ i.name ++ " " ++ pyIntListRepr (i.dims.map (fun d => d.dim_value))

/-- The module body of `get_onnx_info.py`: `onnx.load` either yields a model
(`Except.ok`) or fails (`Except.error`, in which case nothing is printed);
on success the loop prints one line per declared graph input, in order. -/
def get_onnx_info (loaded : Except String OnnxModel) : Except String (List String) :=
  match loaded with
  | Except.error e => Except.error e
  | Except.ok m => Except.ok (m.graph_input.map onnx_input_line)

/-- The canonical spellings of the fixed set the datatype normalizer maps
into: the canonical numpy names plus `"string"`. -/
def canonicalSpellings : List String := npDtypeNames ++ ["string"]

/-- The metadata document of the spec's end-to-end scenario. -/
def demoDoc : MetaDoc :=
  { modelCpp := "/x/foo.cpp",
    tensors := [("a", { type := 0, dims := [1, 3] }),
                ("b", { type := 1, dims := [1, 10] })] }

/-- A `QNNModelInfo` built on `demoDoc` with binary `/out/model.bin`. -/
def demoModel : QNNModelInfo :=
  { model_json := "meta.json", model_path := "/out/model.bin", model_info := demoDoc }

/-- A one-input ONNX model used to instantiate the inspector claims. -/
def demoOnnx : OnnxModel :=
  { graph_input := [{ name := "x", dims := [{ dim_value := 1 }, { dim_value := 3 }] }] }

theorem filterMap_if_eq {α β : Type} (p : α → Prop) [DecidablePred p] (f : α → β)
    (l : List α) :
    (l.filterMap (fun x => if p x then some (f x) else none)) =
      (l.filter (fun x => decide (p x))).map f := by
  induction l with
  | nil => rfl
  | cons a t ih =>
      by_cases h : p a <;>
        simp [List.filterMap_cons, List.filter_cons, h, ih]

theorem zipAlias_names (infos : List TensorInfo) :
    zipAlias infos (infos.map (fun t => t.name)) =
      some (infos.map (fun t => tensor_to_dict t t.name)) := by
  induction infos with
  | nil => rfl
  | cons t ts ih => simp [zipAlias, ih]

theorem zipAlias_short (infos : List TensorInfo) (aliases : List String)
    (h : aliases.length < infos.length) :
    zipAlias infos aliases = none := by
  induction infos generalizing aliases with
  | nil => simp at h
  | cons t ts ih =>
      cases aliases with
      | nil => rfl
      | cons a rest =>
          simp only [List.length_cons, Nat.add_lt_add_iff_right] at h
          simp [zipAlias, ih rest h]

theorem zipAlias_long (infos : List TensorInfo) (aliases : List String)
    (h : infos.length ≤ aliases.length) :
    zipAlias infos aliases =
      some (List.zipWith tensor_to_dict infos (aliases.take infos.length)) := by
  induction infos generalizing aliases with
  | nil => rfl
  | cons t ts ih =>
      cases aliases with
      | nil => simp at h
      | cons a rest =>
          simp only [List.length_cons, Nat.add_le_add_iff_right] at h
          simp [zipAlias, ih rest h, List.zipWith]

theorem find?_mapReplace (d : List (String × JVal)) (k : String) (v : JVal)
    (h : d.any (fun p => p.1 = k)) :
    (d.map (fun p => if p.1 = k then (k, v) else p)).find? (fun p => p.1 = k) =
      some (k, v) := by
  induction d with
  | nil => simp at h
  | cons a t ih =>
      by_cases ha : a.1 = k
      · simp [ha, List.find?]
      · have h' : t.any (fun p => p.1 = k) = true := by
          rcases List.any_eq_true.mp h with ⟨p, hp, hpk⟩
          rcases List.mem_cons.mp hp with rfl | hpt
          · exact absurd (of_decide_eq_true hpk) ha
          · exact List.any_eq_true.mpr ⟨p, hpt, hpk⟩
        rw [List.map_cons, if_neg ha]
        rw [List.find?_cons_of_neg _ (by simpa using ha)]
        exact ih h'

theorem find?_append_of_none {α : Type} (p : α → Bool) (l1 l2 : List α)
    (h : l1.find? p = none) :
    (l1 ++ l2).find? p = l2.find? p := by
  induction l1 with
  | nil => rfl
  | cons a t ih =>
      rw [List.find?_cons] at h
      rcases hpa : p a with _ | _
      · rw [List.cons_append, List.find?_cons, hpa]
        rw [hpa] at h
        exact ih h
      · rw [hpa] at h
        exact absurd h (by simp)

theorem dictGet_dictSet_self (d : List (String × JVal)) (k : String) (v : JVal) :
    dictGet (dictSet d k v) k = some v := by
  unfold dictGet dictSet
  by_cases h : d.any (fun p => p.1 = k)
  · simp [h, find?_mapReplace d k v h]
  · rw [if_neg h]
    have hfind : d.find? (fun p => decide (p.1 = k)) = none := by
      rw [List.find?_eq_none]
      intro p hp
      simp only [List.any_eq_true, not_exists, not_and] at h
      simpa using h p hp
    rw [find?_append_of_none _ _ _ hfind]
    simp [List.find?]

theorem dictUpdate_append_single (d c0 : List (String × JVal)) (k : String) (v : JVal) :
    dictUpdate d (c0 ++ [(k, v)]) = dictSet (dictUpdate d c0) k v := by
  unfold dictUpdate
  rw [List.foldl_append]
  rfl

theorem dtypeInit_ok (t : String) : ∃ v, dtypeInit t = Except.ok v := by
  simp only [dtypeInit]
  cases h : npDtype (dtypeRewrite t) <;> simp [h]

/-- Claim C1: for every metadata document, `get_input_infos` returns exactly
the type-0 tensors and `get_output_infos` exactly the type-1 tensors, in
mapping order, each taking its shape from the descriptor's `dims` field and
each carrying datatype float32 regardless of anything declared in the
metadata. -/
theorem claim_C1 (tensors : List (String × TensorDesc)) :
    get_input_infos tensors =
      (tensors.filter (fun q => q.2.type = 0)).map
        (fun q => { name := q.1, shape := q.2.dims, dtype := "float32",
                    doc_string := "" : TensorInfo }) ∧
    get_output_infos tensors =
      (tensors.filter (fun q => q.2.type = 1)).map
        (fun q => { name := q.1, shape := q.2.dims, dtype := "float32",
                    doc_string := "" : TensorInfo }) ∧
    (get_input_infos tensors).length = (tensors.filter (fun q => q.2.type = 0)).length ∧
    (get_output_infos tensors).length = (tensors.filter (fun q => q.2.type = 1)).length := by
  have h32 : dtypeStr npFloat32 = "float32" := by decide
  have hin : get_input_infos tensors =
      (tensors.filter (fun q => q.2.type = 0)).map
        (fun q => { name := q.1, shape := q.2.dims, dtype := "float32",
                    doc_string := "" : TensorInfo }) := by
    simp only [get_input_infos, h32]
    exact filterMap_if_eq _ _ tensors
  have hout : get_output_infos tensors =
      (tensors.filter (fun q => q.2.type = 1)).map
        (fun q => { name := q.1, shape := q.2.dims, dtype := "float32",
                    doc_string := "" : TensorInfo }) := by
    simp only [get_output_infos, h32]
    exact filterMap_if_eq _ _ tensors
  exact ⟨hin, hout, by rw [hin, List.length_map], by rw [hout, List.length_map]⟩

/-- Claim C4 counterexample: the claim says that for a canonical type other
than the three floats, `encoding_type` yields the spelling uppercased; but
for the canonical type `int8` the code yields `"int8"`, not `"INT8"`. -/
theorem claim_C4_counterexample :
    Dtype.encoding_type (dtypeStr "int8") ≠ pyUpper (dtypeStr "int8") := by decide

/-- Claim C4 (amended): `encoding_type(Dtype(x))` yields `FP32` when the
canonical type is float32, `FP16` for float16, `FP64` for float64, and for
every other canonical type yields the canonical spelling as-is (without
uppercasing). -/
theorem claim_C4 (x : String) :
    (dtypeStr x = "float32" → Dtype.encoding_type (dtypeStr x) = "FP32") ∧
    (dtypeStr x = "float16" → Dtype.encoding_type (dtypeStr x) = "FP16") ∧
    (dtypeStr x = "float64" → Dtype.encoding_type (dtypeStr x) = "FP64") ∧
    (dtypeStr x ≠ "float32" → dtypeStr x ≠ "float16" → dtypeStr x ≠ "float64" →
      Dtype.encoding_type (dtypeStr x) = dtypeStr x) := by
  refine ⟨fun h => ?_, fun h => ?_, fun h => ?_, fun h1 h2 h3 => ?_⟩
  · simp [Dtype.encoding_type, h]
  · simp [Dtype.encoding_type, h]
  · simp [Dtype.encoding_type, h]
  · simp [Dtype.encoding_type, h1, h2, h3]

/-- Claim C4 witness: the amended claim instantiated at the spelling
`"int8"`, whose canonical type is not one of the three floats. -/
theorem claim_C4_witness :
    Dtype.encoding_type (dtypeStr "int8") = dtypeStr "int8" :=
  (claim_C4 "int8").2.2.2 (by decide) (by decide) (by decide)

/-- Claim C5: a spelling that is neither a recognized alias nor a valid
concrete type is retained unchanged by `Dtype.__init__` rather than raising;
the recognized aliases normalize to their canonical types; and construction
never raises at all (the `except TypeError` clause catches every resolution
failure, so in particular a failure could only come from an alias whose
rewritten name fails resolution — a case that does not exist). -/
theorem claim_C5 (s : String)
    (halias : s ∉ ["fp32", "fp16", "fp64", "str", "string"])
    (hres : npDtype s = none) :
    dtypeInit s = Except.ok s ∧
    dtypeInit "fp32" = Except.ok "float32" ∧
    dtypeInit "fp16" = Except.ok "float16" ∧
    dtypeInit "fp64" = Except.ok "float64" ∧
    dtypeInit "str" = Except.ok "string" ∧
    dtypeInit "string" = Except.ok "string" ∧
    ∀ t : String, ∃ v, dtypeInit t = Except.ok v := by
  simp only [List.mem_cons, List.mem_singleton, not_or] at halias
  obtain ⟨h1, h2, h3, h4, h5⟩ := halias
  have hrw : dtypeRewrite s = s := by
    simp [dtypeRewrite, h1, h2, h3]
  refine ⟨?_, rfl, rfl, rfl, rfl, rfl, dtypeInit_ok⟩
  simp only [dtypeInit, hrw, hres, h4, h5]
  simp [h4, h5]

/-- Claim C5 witness: the spelling `"garbage"` is neither an alias nor a
valid concrete type, and passes through unchanged. -/
theorem claim_C5_witness : dtypeInit "garbage" = Except.ok "garbage" :=
  (claim_C5 "garbage" (by decide) (by decide)).1

/-- Claim C6: normalizing an already-canonical spelling returns it
unchanged, and normalizing again yields the same spelling; moreover the
short form and the encoding form of the normalized value are (pure)
functions of the input spelling alone. -/
theorem claim_C6 (c : String) (hc : c ∈ canonicalSpellings) :
    dtypeStr c = c ∧ dtypeStr (dtypeStr c) = c ∧
    (∀ x, Dtype.short_str (dtypeStr x) = short_of_spelling x) ∧
    (∀ x, Dtype.encoding_type (dtypeStr x) = encoding_of_spelling x) := by
  simp only [canonicalSpellings, npDtypeNames, List.mem_append, List.mem_cons,
    List.mem_singleton, List.not_mem_nil, or_false] at hc
  rcases hc with (rfl | rfl | rfl | rfl | rfl | rfl | rfl | rfl | rfl | rfl | rfl | rfl | rfl | rfl) | rfl <;>
    exact ⟨by decide, by decide, fun x => rfl, fun x => rfl⟩

/-- Claim C6 witness: the canonical spelling `"float32"` is a fixed point of
normalization. -/
theorem claim_C6_witness :
    dtypeStr "float32" = "float32" ∧ dtypeStr (dtypeStr "float32") = "float32" :=
  ⟨(claim_C6 "float32" (by decide)).1, (claim_C6 "float32" (by decide)).2.1⟩

theorem find?_mapReplace_ne (d : List (String × JVal)) (k k' : String) (v : JVal)
    (h : k' ≠ k) :
    (d.map (fun p => if p.1 = k then (k, v) else p)).find? (fun p => p.1 = k') =
      d.find? (fun p => p.1 = k') := by
  induction d with
  | nil => rfl
  | cons a t ih =>
      by_cases ha : a.1 = k
      · have ha' : ¬ a.1 = k' := by rw [ha]; exact fun hh => h hh.symm
        have hkv : ¬ (k = k') := fun hh => h hh.symm
        simp only [List.map_cons, if_pos ha]
        rw [List.find?_cons_of_neg _ (by simpa using hkv),
          List.find?_cons_of_neg _ (by simpa using ha'), ih]
      · simp only [List.map_cons, if_neg ha]
        by_cases ha' : a.1 = k'
        · rw [List.find?_cons_of_pos _ (by simpa using ha'),
            List.find?_cons_of_pos _ (by simpa using ha')]
        · rw [List.find?_cons_of_neg _ (by simpa using ha'),
            List.find?_cons_of_neg _ (by simpa using ha'), ih]

theorem dictGet_dictSet_ne (d : List (String × JVal)) (k k' : String) (v : JVal)
    (h : k' ≠ k) :
    dictGet (dictSet d k v) k' = dictGet d k' := by
  unfold dictGet dictSet
  by_cases hany : d.any (fun p => p.1 = k)
  · rw [if_pos hany, find?_mapReplace_ne d k k' v h]
  · rw [if_neg hany, List.find?_append]
    have h2 : List.find? (fun p => decide (p.1 = k')) [(k, v)] = none := by
      rw [List.find?_cons_of_neg _ (by simpa using fun hh => h hh.symm)]
      rfl
    rw [h2]
    simp

theorem to_json_unfold_default (m : QNNModelInfo) (rt : RuntimeArg) (ofn : Option String)
    (b : Bool) (custom : List (String × JVal)) (rts : List String)
    (hrt : (RuntimeArg.toList rt).mapM QNNRuntime.init = Except.ok rts) :
    to_json m rt none none none none ofn b custom =
      Except.ok
        { model := dictUpdate (dictSet (dictSet (dictSet
            [("model_name", JVal.jstr m.model_name),
             ("path_to_zoo", JVal.jstr (get_file_basename m.model_path false)),
             ("engine_type", JVal.jstr "qnn")]
            "input" (JVal.jarr ((get_input_infos m.model_info.tensors).map
              (fun t => tensor_to_dict t t.name))))
            "output" (JVal.jarr ((get_output_infos m.model_info.tensors).map
              (fun t => tensor_to_dict t t.name))))
            "specific_config" (JVal.jobj
              [("runtime_order", JVal.jarr (rts.map JVal.jstr)),
               ("enable_dynamic_runtime", JVal.jbool b)])) custom,
          json_str := json_dumps (JVal.jobj (dictUpdate (dictSet (dictSet (dictSet
            [("model_name", JVal.jstr m.model_name),
             ("path_to_zoo", JVal.jstr (get_file_basename m.model_path false)),
             ("engine_type", JVal.jstr "qnn")]
            "input" (JVal.jarr ((get_input_infos m.model_info.tensors).map
              (fun t => tensor_to_dict t t.name))))
            "output" (JVal.jarr ((get_output_infos m.model_info.tensors).map
              (fun t => tensor_to_dict t t.name))))
            "specific_config" (JVal.jobj
              [("runtime_order", JVal.jarr (rts.map JVal.jstr)),
               ("enable_dynamic_runtime", JVal.jbool b)])) custom)),
          written :=
            match ofn with
            | some f =>
                if f = "" then none
                else some (f, json_dumps (JVal.jobj (dictUpdate (dictSet (dictSet (dictSet
                  [("model_name", JVal.jstr m.model_name),
                   ("path_to_zoo", JVal.jstr (get_file_basename m.model_path false)),
                   ("engine_type", JVal.jstr "qnn")]
                  "input" (JVal.jarr ((get_input_infos m.model_info.tensors).map
                    (fun t => tensor_to_dict t t.name))))
                  "output" (JVal.jarr ((get_output_infos m.model_info.tensors).map
                    (fun t => tensor_to_dict t t.name))))
                  "specific_config" (JVal.jobj
                    [("runtime_order", JVal.jarr (rts.map JVal.jstr)),
                     ("enable_dynamic_runtime", JVal.jbool b)])) custom)))
            | none => none } := by
  simp only [to_json, pyOrStr, Option.getD_none, zipAlias_names, hrt]

/-- Claim C2: runtime-target normalization maps `HTP`/`htp`/`HTP_FIXED8_TF`
to `HTP_FIXED8_TF`, `CPU`/`cpu` to `CPU_FLOAT32` and `GPU`/`gpu` to
`GPU_FLOAT16`, while for every string outside the enumeration and its
shorthand aliases (up to the upper-casing the normalizer applies) `to_json`
fails with `ValueError` — returning no result record at all, hence before
any output file is written. -/
theorem claim_C2 (s : String)
    (h : pyUpper s ∉ ["HTP_FIXED8_TF", "CPU_FLOAT32", "GPU_FLOAT16", "HTP", "CPU", "GPU"]) :
    QNNRuntime.init "HTP" = Except.ok "HTP_FIXED8_TF" ∧
    QNNRuntime.init "htp" = Except.ok "HTP_FIXED8_TF" ∧
    QNNRuntime.init "HTP_FIXED8_TF" = Except.ok "HTP_FIXED8_TF" ∧
    QNNRuntime.init "CPU" = Except.ok "CPU_FLOAT32" ∧
    QNNRuntime.init "cpu" = Except.ok "CPU_FLOAT32" ∧
    QNNRuntime.init "GPU" = Except.ok "GPU_FLOAT16" ∧
    QNNRuntime.init "gpu" = Except.ok "GPU_FLOAT16" ∧
    QNNRuntime.init s = Except.error (PyErr.valueError ("Unknown runtime " ++ pyUpper s)) ∧
    ∀ (m : QNNModelInfo) (ofn : Option String) (b : Bool),
      to_json m (RuntimeArg.single s) none none none none ofn b [] =
        Except.error (PyErr.valueError ("Unknown runtime " ++ pyUpper s)) := by
  simp only [List.mem_cons, List.not_mem_nil, or_false, not_or] at h
  obtain ⟨n1, n2, n3, n4, n5, n6⟩ := h
  have hinit : QNNRuntime.init s =
      Except.error (PyErr.valueError ("Unknown runtime " ++ pyUpper s)) := by
    simp only [QNNRuntime.init, RuntimeEnum, List.mem_cons, List.not_mem_nil, or_false]
    rw [if_neg (by simp [n1, n2, n3]), if_neg n4, if_neg n5, if_neg n6]
  refine ⟨rfl, rfl, rfl, rfl, rfl, rfl, rfl, hinit, ?_⟩
  intro m ofn b
  simp only [to_json, pyOrStr, Option.getD_none, zipAlias_names, RuntimeArg.toList,
    List.mapM_cons, List.mapM_nil, hinit]
  rfl

/-- Claim C2 witness: the runtime string `"npu"` is outside the enumeration
and its aliases, and `to_json` fails with `ValueError` on it. -/
theorem claim_C2_witness :
    to_json demoModel (RuntimeArg.single "npu") none none none none none false [] =
      Except.error (PyErr.valueError ("Unknown runtime " ++ pyUpper "npu")) :=
  (claim_C2 "npu" (by decide)).2.2.2.2.2.2.2.2 demoModel none false

/-- Claim C3: when no input (resp. output) alias list is supplied, every
emitted input (resp. output) tensor record carries the tensor's own name as
`alias_name`; when a supplied alias list is strictly shorter than the
corresponding tensor list, `to_json` fails with `IndexError` rather than
truncating. -/
theorem claim_C3 (m : QNNModelInfo) (rt : RuntimeArg) (ofn : Option String) (b : Bool)
    (ia oa : List String) :
    (∀ r, to_json m rt none none none none ofn b [] = Except.ok r →
       dictGet r.model "input" = some (JVal.jarr ((get_input_infos m.model_info.tensors).map
         (fun t => tensor_to_dict t t.name))) ∧
       dictGet r.model "output" = some (JVal.jarr ((get_output_infos m.model_info.tensors).map
         (fun t => tensor_to_dict t t.name)))) ∧
    (ia.length < (get_input_infos m.model_info.tensors).length →
       to_json m rt none none (some ia) none ofn b [] = Except.error PyErr.indexError) ∧
    (oa.length < (get_output_infos m.model_info.tensors).length →
       to_json m rt none none none (some oa) ofn b [] = Except.error PyErr.indexError) := by
  refine ⟨?_, ?_, ?_⟩
  · intro r hr
    cases hrt : (RuntimeArg.toList rt).mapM QNNRuntime.init with
    | error e =>
        simp only [to_json, pyOrStr, Option.getD_none, zipAlias_names, hrt] at hr
        exact absurd hr (by simp)
    | ok rts =>
        rw [to_json_unfold_default m rt ofn b [] rts hrt] at hr
        injection hr with hr
        subst hr
        refine ⟨?_, ?_⟩ <;> dsimp only
        · rw [show ∀ d : List (String × JVal), dictUpdate d [] = d from fun d => rfl,
            dictGet_dictSet_ne _ "specific_config" "input" _ (by decide),
            dictGet_dictSet_ne _ "output" "input" _ (by decide),
            dictGet_dictSet_self]
        · rw [show ∀ d : List (String × JVal), dictUpdate d [] = d from fun d => rfl,
            dictGet_dictSet_ne _ "specific_config" "output" _ (by decide),
            dictGet_dictSet_self]
  · intro hia
    have hz : zipAlias (get_input_infos m.model_info.tensors) ia = none :=
      zipAlias_short _ _ hia
    simp only [to_json, pyOrStr, Option.getD_none, Option.getD_some, hz]
  · intro hoa
    have hz : zipAlias (get_output_infos m.model_info.tensors) oa = none :=
      zipAlias_short _ _ hoa
    simp only [to_json, pyOrStr, Option.getD_none, Option.getD_some, zipAlias_names, hz]

/-- Claim C3 witness: on the two-tensor demo metadata, an empty alias list
on either side makes `to_json` fail with `IndexError`. -/
theorem claim_C3_witness :
    to_json demoModel (RuntimeArg.single "HTP") none none (some []) none none false [] =
      Except.error PyErr.indexError ∧
    to_json demoModel (RuntimeArg.single "HTP") none none none (some []) none false [] =
      Except.error PyErr.indexError :=
  ⟨(claim_C3 demoModel (RuntimeArg.single "HTP") none false [] []).2.1 (by decide),
   (claim_C3 demoModel (RuntimeArg.single "HTP") none false [] []).2.2 (by decide)⟩

theorem to_json_unfold_some (m : QNNModelInfo) (rt : RuntimeArg) (ofn : Option String)
    (b : Bool) (custom : List (String × JVal)) (ia oa : List String)
    (inD outD : List JVal) (rts : List String)
    (hin : zipAlias (get_input_infos m.model_info.tensors) ia = some inD)
    (hout : zipAlias (get_output_infos m.model_info.tensors) oa = some outD)
    (hrt : (RuntimeArg.toList rt).mapM QNNRuntime.init = Except.ok rts) :
    to_json m rt none none (some ia) (some oa) ofn b custom =
      Except.ok
        { model := dictUpdate (dictSet (dictSet (dictSet
            [("model_name", JVal.jstr m.model_name),
             ("path_to_zoo", JVal.jstr (get_file_basename m.model_path false)),
             ("engine_type", JVal.jstr "qnn")]
            "input" (JVal.jarr inD))
            "output" (JVal.jarr outD))
            "specific_config" (JVal.jobj
              [("runtime_order", JVal.jarr (rts.map JVal.jstr)),
               ("enable_dynamic_runtime", JVal.jbool b)])) custom,
          json_str := json_dumps (JVal.jobj (dictUpdate (dictSet (dictSet (dictSet
            [("model_name", JVal.jstr m.model_name),
             ("path_to_zoo", JVal.jstr (get_file_basename m.model_path false)),
             ("engine_type", JVal.jstr "qnn")]
            "input" (JVal.jarr inD))
            "output" (JVal.jarr outD))
            "specific_config" (JVal.jobj
              [("runtime_order", JVal.jarr (rts.map JVal.jstr)),
               ("enable_dynamic_runtime", JVal.jbool b)])) custom)),
          written :=
            match ofn with
            | some f =>
                if f = "" then none
                else some (f, json_dumps (JVal.jobj (dictUpdate (dictSet (dictSet (dictSet
                  [("model_name", JVal.jstr m.model_name),
                   ("path_to_zoo", JVal.jstr (get_file_basename m.model_path false)),
                   ("engine_type", JVal.jstr "qnn")]
                  "input" (JVal.jarr inD))
                  "output" (JVal.jarr outD))
                  "specific_config" (JVal.jobj
                    [("runtime_order", JVal.jarr (rts.map JVal.jstr)),
                     ("enable_dynamic_runtime", JVal.jbool b)])) custom)))
            | none => none } := by
  simp only [to_json, pyOrStr, Option.getD_some, hin, hout, hrt]

/-- Claim C9: `to_json` merges the caller-supplied extra key/value fields
into the config record last, so on a key collision the caller-supplied value
overwrites the previously assembled one; and it always returns the
serialized indented JSON text — also writing that same text to the output
path when a (truthy) output filename is given. -/
theorem claim_C9 (m : QNNModelInfo) (k : String) (v : JVal) (ofn : Option String)
    (b : Bool) (custom0 : List (String × JVal)) :
    ∃ r, to_json m (RuntimeArg.single "HTP") none none none none ofn b
           (custom0 ++ [(k, v)]) = Except.ok r ∧
         dictGet r.model k = some v ∧
         r.json_str = json_dumps (JVal.jobj r.model) ∧
         (ofn = none → r.written = none) ∧
         (∀ f, ofn = some f → f ≠ "" → r.written = some (f, r.json_str)) := by
  have hrt : (RuntimeArg.toList (RuntimeArg.single "HTP")).mapM QNNRuntime.init =
      Except.ok ["HTP_FIXED8_TF"] := rfl
  refine ⟨_, to_json_unfold_default m _ ofn b (custom0 ++ [(k, v)]) _ hrt, ?_, rfl, ?_, ?_⟩
  · dsimp only
    rw [dictUpdate_append_single, dictGet_dictSet_self]
  · intro hofn
    subst hofn
    rfl
  · intro f hofn hf
    subst hofn
    dsimp only
    rw [if_neg hf]

/-- Claim C9 witness: a caller-supplied `engine_type` replaces the
assembled `"qnn"` value, and the returned text is also recorded as written
to the supplied output path. -/
theorem claim_C9_witness :
    ∃ r, to_json demoModel (RuntimeArg.single "HTP") none none none none
           (some "/out/model.json") false ([] ++ [("engine_type", JVal.jstr "other")]) =
         Except.ok r ∧
         dictGet r.model "engine_type" = some (JVal.jstr "other") ∧
         r.written = some ("/out/model.json", r.json_str) := by
  obtain ⟨r, h1, h2, h3, h4, h5⟩ := claim_C9 demoModel "engine_type" (JVal.jstr "other")
    (some "/out/model.json") false []
  exact ⟨r, h1, h2, h5 "/out/model.json" rfl (by decide)⟩

/-- Claim C10: a supplied alias list strictly longer than the corresponding
tensor list does not fail: tensors are paired with alias entries
positionally, only the first N alias entries are used, and the surplus
entries are silently ignored and absent from the emitted record. -/
theorem claim_C10 (m : QNNModelInfo) (ia oa : List String) (ofn : Option String) (b : Bool)
    (hia : (get_input_infos m.model_info.tensors).length < ia.length)
    (hoa : (get_output_infos m.model_info.tensors).length < oa.length) :
    ∃ r, to_json m (RuntimeArg.single "HTP") none none (some ia) (some oa) ofn b [] =
           Except.ok r ∧
         dictGet r.model "input" = some (JVal.jarr (List.zipWith tensor_to_dict
           (get_input_infos m.model_info.tensors)
           (ia.take (get_input_infos m.model_info.tensors).length))) ∧
         dictGet r.model "output" = some (JVal.jarr (List.zipWith tensor_to_dict
           (get_output_infos m.model_info.tensors)
           (oa.take (get_output_infos m.model_info.tensors).length))) := by
  have hin := zipAlias_long (get_input_infos m.model_info.tensors) ia (Nat.le_of_lt hia)
  have hout := zipAlias_long (get_output_infos m.model_info.tensors) oa (Nat.le_of_lt hoa)
  have hrt : (RuntimeArg.toList (RuntimeArg.single "HTP")).mapM QNNRuntime.init =
      Except.ok ["HTP_FIXED8_TF"] := rfl
  refine ⟨_, to_json_unfold_some m _ ofn b [] ia oa _ _ _ hin hout hrt, ?_, ?_⟩
  · dsimp only
    rw [show ∀ d : List (String × JVal), dictUpdate d [] = d from fun d => rfl,
      dictGet_dictSet_ne _ "specific_config" "input" _ (by decide),
      dictGet_dictSet_ne _ "output" "input" _ (by decide),
      dictGet_dictSet_self]
  · dsimp only
    rw [show ∀ d : List (String × JVal), dictUpdate d [] = d from fun d => rfl,
      dictGet_dictSet_ne _ "specific_config" "output" _ (by decide),
      dictGet_dictSet_self]

/-- Claim C10 witness: on the one-input one-output demo metadata, alias
lists of length two succeed with only their first entries used. -/
theorem claim_C10_witness :
    ∃ r, to_json demoModel (RuntimeArg.single "HTP") none none (some ["x", "y"])
           (some ["u", "w"]) none false [] = Except.ok r ∧
         dictGet r.model "input" = some (JVal.jarr (List.zipWith tensor_to_dict
           (get_input_infos demoModel.model_info.tensors)
           (["x", "y"].take (get_input_infos demoModel.model_info.tensors).length))) ∧
         dictGet r.model "output" = some (JVal.jarr (List.zipWith tensor_to_dict
           (get_output_infos demoModel.model_info.tensors)
           (["u", "w"].take (get_output_infos demoModel.model_info.tensors).length))) :=
  claim_C10 demoModel ["x", "y"] ["u", "w"] none false (by decide) (by decide)

/-- Claim C7: the model display name is the basename of the metadata's
`model.cpp` field with directory and extension stripped, and the end-to-end
run on the spec's scenario (metadata with `model.cpp = /x/foo.cpp`, tensor
`a` of type 0 and dims `[1,3]`, tensor `b` of type 1 and dims `[1,10]`,
binary `/out/model.bin`, default output name `waterdrop`) copies the binary
into `/out/waterdrop/0/` and writes `/out/waterdrop/0/model.json` with
model_name `foo`, engine_type `qnn`, path_to_zoo `model.bin`, one input `a`
of shape `[1,3]` with encoding `FP32`, one output `b` of shape `[1,10]`
with encoding `FP32`, and specific_config with runtime_order
`["HTP_FIXED8_TF"]` and enable_dynamic_runtime `false`. -/
theorem claim_C7 :
    QNNModelInfo.model_name demoModel = "foo" ∧
    get_file_basename "/x/foo.cpp" true = "foo" ∧
    ∃ r, qnn_main "/" demoDoc "meta.json" "/out/model.bin" "waterdrop" = Except.ok r ∧
      r.outputDir = "/out/waterdrop/0" ∧
      r.copy_src = "/out/model.bin" ∧
      r.copy_dst = "/out/waterdrop/0/" ∧
      r.config.model =
        [("model_name", JVal.jstr "foo"),
         ("path_to_zoo", JVal.jstr "model.bin"),
         ("engine_type", JVal.jstr "qnn"),
         ("input", JVal.jarr [JVal.jobj
            [("name", JVal.jstr "a"),
             ("shape", JVal.jarr [JVal.jnum 1, JVal.jnum 3]),
             ("encoding_type", JVal.jstr "FP32"),
             ("alias_name", JVal.jstr "a")]]),
         ("output", JVal.jarr [JVal.jobj
            [("name", JVal.jstr "b"),
             ("shape", JVal.jarr [JVal.jnum 1, JVal.jnum 10]),
             ("encoding_type", JVal.jstr "FP32"),
             ("alias_name", JVal.jstr "b")]]),
         ("specific_config", JVal.jobj
            [("runtime_order", JVal.jarr [JVal.jstr "HTP_FIXED8_TF"]),
             ("enable_dynamic_runtime", JVal.jbool false)])] ∧
      r.config.written = some ("/out/waterdrop/0/model.json", r.config.json_str) :=
  ⟨rfl, rfl, _, rfl, rfl, rfl, rfl, rfl, rfl⟩

/-- Claim C8: for every successfully loaded model the inspector emits
exactly one output line per declared graph input, in declaration order, the
k-th line being `-d <name> [<dim0>, <dim1>, ...]` with the dimensions read
from the declared `dim_value`s (no filtering, no deduplication); when the
file cannot be parsed the whole run fails and no lines are produced. -/
theorem claim_C8 (m : OnnxModel) (e : String) (k : Nat) :
    (∃ lines, get_onnx_info (Except.ok m) = Except.ok lines ∧
       lines.length = m.graph_input.length ∧
       lines[k]? = (m.graph_input[k]?).map (fun i =>
         "-d " ++ i.name ++ " " ++ pyIntListRepr (i.dims.map (fun d => d.dim_value)))) ∧
    get_onnx_info (Except.error e) = Except.error e := by
  refine ⟨⟨m.graph_input.map onnx_input_line, rfl, List.length_map _ _, ?_⟩, rfl⟩
  rw [List.getElem?_map]
  rfl
